import Mathlib

/-!
Verification development for the organic traffic generator
(`organic_traffic_gen.py`): a shallow embedding of the user-session
statistics accumulator (`UserSession.make_request`), the session loop
(`UserSession.should_continue` / `UserSession.run`), the concurrency
controller loop (`OrganicTrafficGenerator.run`) and the summary
reduction (`OrganicTrafficGenerator.print_summary`), together with
theorems settling the specification's claims about them.

Time values and response times (Python floats) are modelled as exact
rationals; server identifiers as strings; the set of distinct backend
servers as a `Finset String`.
-/

namespace WebStress

/-- The `self.stats` dictionary of `UserSession` (lines 115-121):
request, success and error counters, the running response-time sum and
the set of distinct `X-Server-ID` values seen. -/
structure SessionStats where
  requests : Nat
  success : Nat
  errors : Nat
  total_response_time : ℚ
  servers_hit : Finset String
deriving DecidableEq

/-- The initial stats of a fresh `UserSession` (lines 115-121). -/
def initStats : SessionStats :=
  { requests := 0, success := 0, errors := 0
    total_response_time := 0, servers_hit := ∅ }

/-- The outcome of one attempted HTTP GET, as observed inside the
`try` of `make_request` (lines 153-171): either the awaited response
completed (carrying its status code, the optional `X-Server-ID` header
and the elapsed wall-clock time), or an exception was raised (timeout,
connection error, ...) after some elapsed time. -/
inductive ReqOutcome where
  | ok (status : Nat) (server_header : Option String) (elapsed : ℚ)
  | exn (msg : String) (elapsed : ℚ)
deriving DecidableEq

/-- The dictionary `make_request` returns (lines 166-178): a success
record with status, server id and response time, or an error record. -/
inductive ReqResult where
  | ok (status : Nat) (server_id : String) (response_time : ℚ)
  | err (error : String) (response_time : ℚ)
deriving DecidableEq

/-- Model of `UserSession.make_request` (lines 148-178): on a completed response
(whatever its status code) it increments `requests` and `success`, adds
the elapsed time, and inserts the `X-Server-ID` header value (the
sentinel "unknown" when the header is absent, line 163); on a raised
exception it increments `requests` and `errors` only and returns the
error record normally (the `except` clause catches every exception). -/
def make_request (s : SessionStats) (o : ReqOutcome) : SessionStats × ReqResult :=
  match o with
  | .ok status hdr elapsed =>
      let server_id := hdr.getD "unknown"
      ({ requests := s.requests + 1
         success := s.success + 1
         errors := s.errors
         total_response_time := s.total_response_time + elapsed
         servers_hit := insert server_id s.servers_hit },
       .ok status server_id elapsed)
  | .exn msg elapsed =>
      ({ requests := s.requests + 1
         success := s.success
         errors := s.errors + 1
         total_response_time := s.total_response_time
         servers_hit := s.servers_hit },
       .err msg elapsed)

/-- The stats accumulated by a session after a sequence of completed
requests, folding `make_request` from the fresh-session stats. -/
def statsAfter (l : List ReqOutcome) : SessionStats :=
  l.foldl (fun s o => (make_request s o).1) initStats

/-- The elapsed time a single outcome contributes to
`total_response_time`: only a completed response contributes
(line 160); a raised exception contributes nothing. -/
def successElapsed : ReqOutcome → Option ℚ
  | .ok _ _ elapsed => some elapsed
  | .exn _ _ => none

/-- The totals `print_summary` computes over the completed-session
list (lines 256-263): sums of the four counters and the union of the
per-session server sets. -/
structure Totals where
  total_requests : Nat
  total_success : Nat
  total_errors : Nat
  total_response_time : ℚ
  all_servers : Finset String
deriving DecidableEq

/-- The pure reduction of `print_summary` (lines 256-263): sum each
counter over the completed sessions and union the `servers_hit` sets
(the `all_servers.update` loop, lines 261-263). -/
def summarize (l : List SessionStats) : Totals :=
  { total_requests := (l.map SessionStats.requests).sum
    total_success := (l.map SessionStats.success).sum
    total_errors := (l.map SessionStats.errors).sum
    total_response_time := (l.map SessionStats.total_response_time).sum
    all_servers := l.foldl (fun acc s => acc ∪ s.servers_hit) ∅ }

/-- Line 265: `avg_response_time = total_response_time / total_requests
if total_requests > 0 else 0` — the guarded average. -/
def avg_response_time (t : Totals) : ℚ :=
  if 0 < t.total_requests then t.total_response_time / t.total_requests else 0

/-- Component-wise merge of two totals: counters add, server sets
union. -/
def combine (a b : Totals) : Totals :=
  { total_requests := a.total_requests + b.total_requests
    total_success := a.total_success + b.total_success
    total_errors := a.total_errors + b.total_errors
    total_response_time := a.total_response_time + b.total_response_time
    all_servers := a.all_servers ∪ b.all_servers }

/-- The values `print_summary` renders (lines 267-277): session count,
the totals, the guarded average and the two percentages. -/
structure SummaryReport where
  total_sessions : Nat
  totals : Totals
  avg : ℚ
  success_pct : ℚ
  error_pct : ℚ
deriving DecidableEq

/-- The full computation of `print_summary` (lines 254-277).  The
average is guarded (line 265), but lines 272-273 evaluate
`total_success/total_requests*100` and `total_errors/total_requests*100`
unconditionally: when `total_requests` is zero Python raises
`ZeroDivisionError`, modelled here as `Except.error`. -/
def print_summary (l : List SessionStats) : Except String SummaryReport :=
  let t := summarize l
  let avg := avg_response_time t
  if t.total_requests = 0 then
    .error "ZeroDivisionError"
  else
    .ok { total_sessions := l.length
          totals := t
          avg := avg
          success_pct := (t.total_success : ℚ) / t.total_requests * 100
          error_pct := (t.total_errors : ℚ) / t.total_requests * 100 }

/-- The mutable per-session loop state of `UserSession.run`: the
`requests_made` counter (line 111, incremented at line 187) and the
stats accumulator. -/
structure SessionState where
  requests_made : Nat
  stats : SessionStats
deriving DecidableEq

/-- Model of `UserSession.should_continue` (lines 123-126): continue while
elapsed time is below the sampled session duration and `requests_made`
is below the sampled page budget. -/
def should_continue (now start_time session_duration : ℚ)
    (requests_made total_pages : Nat) : Bool :=
  (now - start_time < session_duration) && (requests_made < total_pages)

/-- Model of `UserSession.run` (lines 180-194), driven by a trace supplying, for
each potential loop iteration, the wall-clock reading at the
`should_continue` check and the outcome of that iteration's request.
While `should_continue` holds, one request is made and `requests_made`
is incremented once; as soon as it fails the loop exits and the state
is returned unchanged (think-time pauses affect no counter and are not
modelled). -/
def sessionRun (start_time session_duration : ℚ) (total_pages : Nat) :
    SessionState → List (ℚ × ReqOutcome) → SessionState
  | st, [] => st
  | st, (now, o) :: rest =>
      if should_continue now start_time session_duration st.requests_made total_pages then
        sessionRun start_time session_duration total_pages
          { requests_made := st.requests_made + 1
            stats := (make_request st.stats o).1 } rest
      else st

/-- The controller state of `OrganicTrafficGenerator.run` (lines
232-244): the size of `self.active_sessions` and the `session_id`
counter (which equals the number of sessions spawned so far, since it
starts at 0 and is incremented once per spawned task). -/
structure CtrlState where
  active : Nat
  session_id : Nat
deriving DecidableEq

/-- The top-up loop (lines 241-244): `while len(active_sessions) <
concurrent_users`, spawn one task and increment `session_id`. -/
def top_up (concurrent_users : Int) (a sid : Nat) : Nat × Nat :=
  if (a : Int) < concurrent_users then top_up concurrent_users (a + 1) (sid + 1)
  else (a, sid)
termination_by (concurrent_users - a).toNat
decreasing_by omega

/-- One control tick (lines 236-246): reap the finished tasks (the
schedule says how many of the active tasks completed; line 238), then
top up to the target concurrency. -/
def tick (concurrent_users : Int) (st : CtrlState) (reaped : Nat) : CtrlState :=
  let a1 := st.active - min reaped st.active
  let t := top_up concurrent_users a1 st.session_id
  { active := t.1, session_id := t.2 }

/-- The steady-state loop of `OrganicTrafficGenerator.run` (lines
236-246), driven by a schedule supplying, for each potential tick, the
elapsed time `time.time() - self.start_time` observed at the loop
condition and the number of active tasks that finished since the last
tick.  Returns the list of controller states after each executed tick
(each one a post-top-up state); the loop exits at the first tick whose
elapsed time reaches the duration, entering the draining state. -/
def ctrl_trace (concurrent_users : Int) (duration : ℚ) :
    CtrlState → List (ℚ × Nat) → List CtrlState
  | _, [] => []
  | st, (elapsed, reaped) :: rest =>
      if elapsed < duration then
        let st' := tick concurrent_users st reaped
        st' :: ctrl_trace concurrent_users duration st' rest
      else []

/-- Final controller state after the steady-state loop. -/
def ctrl_run (concurrent_users : Int) (duration : ℚ)
    (st : CtrlState) (schedule : List (ℚ × Nat)) : CtrlState :=
  (ctrl_trace concurrent_users duration st schedule).getLastD st

/-- The configuration `main` (lines 322-342) hands to
`OrganicTrafficGenerator.__init__` (lines 201-207). -/
structure GenConfig where
  target_url : String
  concurrent_users : Int
  duration : Int
deriving DecidableEq

/-- Model of `main` (lines 322-342) together with `__init__` (lines 201-207):
the parsed `--users` and `--duration` integers are stored as-is; no
validation of either value occurs anywhere on the startup path, so
startup never fails on a non-positive value. -/
def main_startup (target : String) (users duration : Int) :
    Except String GenConfig :=
  .ok { target_url := target, concurrent_users := users, duration := duration }

/-- How one session task finishes: `user.run()` returns its stats, or
raises an unexpected internal fault. -/
inductive SessionOutcome where
  | ok (stats : SessionStats)
  | fault (msg : String)
deriving DecidableEq

/-- Model of `OrganicTrafficGenerator.spawn_user` (lines 216-221), given how the
awaited `user.run()` finished.  Returns the new completed-session list,
the list of log messages the code emits for a fault (there is no
logging statement: always empty), and the task's termination (a fault
propagates out of `spawn_user` into the task uncaught).  On normal
completion the stats are appended to `completed_sessions`; on a fault
the append at line 221 is never reached. -/
def spawn_user (completed : List SessionStats) (o : SessionOutcome) :
    List SessionStats × List String × Except String Unit :=
  match o with
  | .ok stats => (completed ++ [stats], [], .ok ())
  | .fault msg => (completed, [], .error msg)

/-- Line 250: `asyncio.gather(*active_sessions, return_exceptions=True)`
— the drain collects every task's termination (exceptions included) and
itself returns normally, never re-raising. -/
def gather_return_exceptions (results : List (Except String Unit)) :
    Except String (List (Except String Unit)) :=
  .ok results

/-- The completed-session list produced by a list of session-task
terminations: each normally-finished task appended its stats in
`spawn_user`; a faulted task appended nothing. -/
def completedOf (outcomes : List SessionOutcome) : List SessionStats :=
  outcomes.filterMap fun o =>
    match o with
    | .ok stats => some stats
    | .fault _ => none

/-! ## Helper lemmas -/

theorem make_request_fst_requests (s : SessionStats) (o : ReqOutcome) :
    (make_request s o).1.requests = s.requests + 1 := by
  cases o <;> rfl

theorem make_request_fst_success_errors (s : SessionStats) (o : ReqOutcome) :
    (make_request s o).1.success + (make_request s o).1.errors
      = (s.success + s.errors) + 1 := by
  cases o <;> simp [make_request] <;> omega

theorem foldl_make_request_inv (l : List ReqOutcome) :
    ∀ s : SessionStats, s.success + s.errors = s.requests →
      (l.foldl (fun s o => (make_request s o).1) s).success
        + (l.foldl (fun s o => (make_request s o).1) s).errors
        = (l.foldl (fun s o => (make_request s o).1) s).requests := by
  induction l with
  | nil => intro s h; exact h
  | cons o rest ih =>
      intro s h
      simp only [List.foldl_cons]
      apply ih
      cases o <;> simp [make_request] <;> omega

theorem statsAfter_inv (l : List ReqOutcome) :
    (statsAfter l).success + (statsAfter l).errors = (statsAfter l).requests :=
  foldl_make_request_inv l initStats rfl

theorem foldl_make_request_rt (l : List ReqOutcome) :
    ∀ s : SessionStats,
      (l.foldl (fun s o => (make_request s o).1) s).total_response_time
        = s.total_response_time + (l.filterMap successElapsed).sum := by
  induction l with
  | nil => intro s; simp
  | cons o rest ih =>
      intro s
      cases o with
      | ok status hdr e =>
          simp only [List.foldl_cons, List.filterMap_cons]
          rw [ih]
          simp [make_request, successElapsed, add_assoc]
      | exn m e =>
          simp only [List.foldl_cons, List.filterMap_cons]
          rw [ih]
          simp [make_request, successElapsed]

theorem foldl_make_request_len (l : List ReqOutcome) :
    ∀ s : SessionStats,
      (l.foldl (fun s o => (make_request s o).1) s).requests
        = s.requests + l.length := by
  induction l with
  | nil => intro s; simp
  | cons o rest ih =>
      intro s
      simp only [List.foldl_cons, List.length_cons]
      rw [ih]
      cases o <;> simp [make_request] <;> omega

theorem statsAfter_rt (l : List ReqOutcome) :
    (statsAfter l).total_response_time = (l.filterMap successElapsed).sum := by
  have h := foldl_make_request_rt l initStats
  simpa [statsAfter, initStats] using h

theorem statsAfter_requests (l : List ReqOutcome) :
    (statsAfter l).requests = l.length := by
  have h := foldl_make_request_len l initStats
  simpa [statsAfter, initStats] using h

theorem summarize_requests_map (ls : List (List ReqOutcome)) :
    (summarize (ls.map statsAfter)).total_requests
      = (ls.map fun t => t.length).sum := by
  simp only [summarize, List.map_map]
  congr 1
  apply List.map_congr_left
  intro t _
  exact statsAfter_requests t

theorem summarize_rt_map (ls : List (List ReqOutcome)) :
    (summarize (ls.map statsAfter)).total_response_time
      = (ls.map fun t => (t.filterMap successElapsed).sum).sum := by
  simp only [summarize, List.map_map]
  congr 1
  apply List.map_congr_left
  intro t _
  exact statsAfter_rt t

theorem summarize_agg_inv (l : List SessionStats) :
    (∀ s ∈ l, s.success + s.errors = s.requests) →
      (summarize l).total_success + (summarize l).total_errors
        = (summarize l).total_requests := by
  induction l with
  | nil => intro _; rfl
  | cons s rest ih =>
      intro h
      have hs := h s (List.mem_cons_self s rest)
      have hr := ih fun x hx => h x (List.mem_cons_of_mem s hx)
      simp only [summarize, List.map_cons, List.sum_cons] at hr ⊢
      omega

/-! ## Claim theorems -/

/-- Claim C1: each call to `make_request` increments the request
counter by exactly one and exactly one of the success or error
counters by exactly one, so `success + errors = requests` holds for
every session after any sequence of completed requests, and the same
equality holds for the aggregate totals of `print_summary` computed
over any list of session stats so obtained. -/
theorem c1_success_errors_requests :
    (∀ (s : SessionStats) (o : ReqOutcome),
        (make_request s o).1.requests = s.requests + 1 ∧
        (((make_request s o).1.success = s.success + 1 ∧
            (make_request s o).1.errors = s.errors) ∨
          ((make_request s o).1.success = s.success ∧
            (make_request s o).1.errors = s.errors + 1))) ∧
    (∀ l : List ReqOutcome,
        (statsAfter l).success + (statsAfter l).errors = (statsAfter l).requests) ∧
    (∀ ls : List (List ReqOutcome),
        (summarize (ls.map statsAfter)).total_success
          + (summarize (ls.map statsAfter)).total_errors
          = (summarize (ls.map statsAfter)).total_requests) := by
  refine ⟨?_, statsAfter_inv, ?_⟩
  · intro s o
    cases o with
    | ok status hdr e => exact ⟨rfl, Or.inl ⟨rfl, rfl⟩⟩
    | exn m e => exact ⟨rfl, Or.inr ⟨rfl, rfl⟩⟩
  · intro ls
    apply summarize_agg_inv
    intro s hs
    rcases List.mem_map.1 hs with ⟨t, _, rfl⟩
    exact statsAfter_inv t

/-- Claim C2: on an empty completed-session list the summary reduction
yields zero total requests, average response time 0 and an empty
backend set, but the full `print_summary` computation nevertheless
raises `ZeroDivisionError`, because lines 272-273 divide
`total_success` and `total_errors` by `total_requests` without the
guard that protects the average at line 265. -/
theorem c2_empty_summary :
    print_summary [] = .error "ZeroDivisionError" ∧
    summarize [] = { total_requests := 0, total_success := 0, total_errors := 0
                     total_response_time := 0, all_servers := ∅ } ∧
    avg_response_time (summarize []) = 0 :=
  ⟨rfl, rfl, rfl⟩

/-- Claim C3 counterexample: a response that completes with status 500
is recorded as a success, not an error — `make_request` never inspects
the status code, so the success counter becomes 1 and the error
counter stays 0, contradicting the claim that a non-exceptional error
status increments the error counter and not the success counter. -/
theorem c3_counterexample_status_500 :
    (make_request initStats (ReqOutcome.ok 500 (some "backend-1") 1)).1.success = 1 ∧
    (make_request initStats (ReqOutcome.ok 500 (some "backend-1") 1)).1.errors = 0 :=
  ⟨rfl, rfl⟩

/-- Claim C3 (amended): any completed response, whatever its status
code (5xx included), is recorded as a success — the success and
request counters are incremented and the error counter is not; only a
raised exception (timeout, connection error) is recorded as an
error. -/
theorem c3_completed_response_counted_as_success (s : SessionStats)
    (status : Nat) (hdr : Option String) (e : ℚ) (m : String) :
    (make_request s (.ok status hdr e)).1.success = s.success + 1 ∧
    (make_request s (.ok status hdr e)).1.errors = s.errors ∧
    (make_request s (.ok status hdr e)).1.requests = s.requests + 1 ∧
    (make_request s (.exn m e)).1.errors = s.errors + 1 ∧
    (make_request s (.exn m e)).1.success = s.success :=
  ⟨rfl, rfl, rfl, rfl, rfl⟩

/-- Claim C4: a per-request failure (raised exception) is caught
inside `make_request`, which returns the error record normally —
mutating only the owning session's stats, by one error and one
request — and the session loop consumes exactly one outcome for it
(no retry) and proceeds to its next iteration whenever
`should_continue` still holds. -/
theorem c4_failure_caught_no_retry (s : SessionStats) (m : String) (e : ℚ)
    (start dur : ℚ) (pages : Nat) (st : SessionState) (now : ℚ)
    (rest : List (ℚ × ReqOutcome)) :
    make_request s (.exn m e)
      = ({ requests := s.requests + 1, success := s.success
           errors := s.errors + 1
           total_response_time := s.total_response_time
           servers_hit := s.servers_hit },
         ReqResult.err m e) ∧
    sessionRun start dur pages st ((now, ReqOutcome.exn m e) :: rest)
      = if should_continue now start dur st.requests_made pages then
          sessionRun start dur pages
            { requests_made := st.requests_made + 1
              stats := (make_request st.stats (ReqOutcome.exn m e)).1 } rest
        else st :=
  ⟨rfl, rfl⟩

theorem sessionRun_le_pages (start dur : ℚ) (pages : Nat) :
    ∀ (trace : List (ℚ × ReqOutcome)) (st : SessionState),
      st.requests_made ≤ pages →
      (sessionRun start dur pages st trace).requests_made ≤ pages := by
  intro trace
  induction trace with
  | nil => intro st h; exact h
  | cons p rest ih =>
      intro st h
      obtain ⟨now, o⟩ := p
      rw [sessionRun]
      by_cases hc : should_continue now start dur st.requests_made pages = true
      · rw [if_pos hc]
        apply ih
        simp only [should_continue, Bool.and_eq_true, decide_eq_true_eq] at hc
        exact hc.2
      · rw [if_neg hc]; exact h

theorem top_up_eq_stop (cu : Int) (a sid : Nat) (h : ¬ (a : Int) < cu) :
    top_up cu a sid = (a, sid) := by
  rw [top_up, if_neg h]

theorem top_up_fst_aux (cu : Int) : ∀ (n a sid : Nat), (cu - a).toNat = n →
    (top_up cu a sid).1 = if (a : Int) < cu then cu.toNat else a := by
  intro n
  induction n using Nat.strong_induction_on with
  | _ n ih =>
      intro a sid hn
      rw [top_up]
      by_cases h : (a : Int) < cu
      · rw [if_pos h, if_pos h]
        have hlt : (cu - ((a + 1 : Nat) : Int)).toNat < n := by
          push_cast
          omega
        rw [ih _ hlt (a + 1) (sid + 1) rfl]
        by_cases h2 : ((a + 1 : Nat) : Int) < cu
        · rw [if_pos h2]
        · rw [if_neg h2]
          push_cast at h h2
          omega
      · rw [if_neg h, if_neg h]

theorem top_up_fst (cu : Int) (a sid : Nat) :
    (top_up cu a sid).1 = if (a : Int) < cu then cu.toNat else a :=
  top_up_fst_aux cu ((cu - a).toNat) a sid rfl

theorem top_up_exact (cu : Int) (a sid : Nat) (hcu : 0 ≤ cu)
    (ha : a ≤ cu.toNat) : (top_up cu a sid).1 = cu.toNat := by
  rw [top_up_fst]
  by_cases h : (a : Int) < cu
  · rw [if_pos h]
  · rw [if_neg h]
    omega

theorem tick_active (cu : Int) (st : CtrlState) (r : Nat) (hcu : 0 ≤ cu)
    (hst : st.active ≤ cu.toNat) : (tick cu st r).active = cu.toNat := by
  simp only [tick]
  apply top_up_exact cu _ _ hcu
  omega

theorem ctrl_trace_active (cu : Int) (dur : ℚ) (hcu : 0 ≤ cu) :
    ∀ (sch : List (ℚ × Nat)) (st : CtrlState), st.active ≤ cu.toNat →
      ∀ x ∈ ctrl_trace cu dur st sch, x.active = cu.toNat := by
  intro sch
  induction sch with
  | nil => intro st _ x hx; simp [ctrl_trace] at hx
  | cons p rest ih =>
      intro st hst x hx
      obtain ⟨e, r⟩ := p
      rw [ctrl_trace] at hx
      by_cases he : e < dur
      · rw [if_pos he] at hx
        have htick := tick_active cu st r hcu hst
        rcases List.mem_cons.1 hx with h1 | h2
        · rw [h1]; exact htick
        · exact ih (tick cu st r) (le_of_eq htick) x h2
      · rw [if_neg he] at hx
        simp at hx

theorem tick_session_id_nonpos (cu : Int) (st : CtrlState) (r : Nat)
    (hcu : cu ≤ 0) : (tick cu st r).session_id = st.session_id := by
  simp only [tick]
  rw [top_up_eq_stop]
  omega

theorem ctrl_run_session_id_nonpos (cu : Int) (dur : ℚ) (hcu : cu ≤ 0) :
    ∀ (sch : List (ℚ × Nat)) (st : CtrlState),
      (ctrl_run cu dur st sch).session_id = st.session_id := by
  intro sch
  induction sch with
  | nil => intro st; rfl
  | cons p rest ih =>
      intro st
      obtain ⟨e, r⟩ := p
      unfold ctrl_run ctrl_trace
      by_cases he : e < dur
      · rw [if_pos he, List.getLastD_cons]
        have h1 := ih (tick cu st r)
        unfold ctrl_run at h1
        rw [h1]
        exact tick_session_id_nonpos cu st r hcu
      · rw [if_neg he]
        rfl

/-- Claim C5 counterexample: `main_startup` with a concurrent-user
count of 0 and a duration of -5 succeeds — the startup path performs
no validation, so the program does not fail fatally at startup on a
non-positive configuration, contradicting the claim. -/
theorem c5_counterexample_no_validation :
    main_startup "http://localhost:7777" 0 (-5)
      = .ok { target_url := "http://localhost:7777"
              concurrent_users := 0, duration := -5 } :=
  rfl

/-- Claim C5 (amended): the startup path accepts any concurrent-user
count and duration without validation; with a non-positive
concurrent-user count the controller's top-up never spawns a session
(the `session_id` counter stays 0 over any schedule), and the run then
fails only at the very end, when `print_summary` over the empty
completed-session list raises `ZeroDivisionError` — not at startup. -/
theorem c5_nonpositive_users_no_spawn (url : String) (users d : Int)
    (dur : ℚ) (sch : List (ℚ × Nat)) (h : users ≤ 0) :
    (main_startup url users d).isOk = true ∧
    (ctrl_run users dur { active := 0, session_id := 0 } sch).session_id = 0 ∧
    print_summary [] = .error "ZeroDivisionError" :=
  ⟨rfl, ctrl_run_session_id_nonpos users dur h sch _, rfl⟩

/-- Witness for `c5_nonpositive_users_no_spawn` at a concrete
configuration and schedule. -/
theorem c5_nonpositive_users_no_spawn_witness :
    (main_startup "http://h" 0 300).isOk = true ∧
    (ctrl_run 0 300 { active := 0, session_id := 0 } [(0, 0), (1, 0)]).session_id = 0 ∧
    print_summary [] = .error "ZeroDivisionError" :=
  c5_nonpositive_users_no_spawn "http://h" 0 300 300 [(0, 0), (1, 0)] (by norm_num)

/-- Claim C6: the session loop iterates exactly while
`(now - start) < sessionDuration` and `requests_made < total_pages`
(the `should_continue` predicate), increments `requests_made` exactly
once per iteration, stops immediately when the predicate fails, and
consequently `requests_made ≤ total_pages` at termination of any
session started from the fresh state. -/
theorem c6_session_loop_bounds (start dur : ℚ) (pages : Nat)
    (trace : List (ℚ × ReqOutcome)) (st : SessionState) (now : ℚ)
    (o : ReqOutcome) (rest : List (ℚ × ReqOutcome)) :
    (sessionRun start dur pages { requests_made := 0, stats := initStats }
        trace).requests_made ≤ pages ∧
    (sessionRun start dur pages st ((now, o) :: rest)
      = if should_continue now start dur st.requests_made pages then
          sessionRun start dur pages
            { requests_made := st.requests_made + 1
              stats := (make_request st.stats o).1 } rest
        else st) ∧
    should_continue now start dur st.requests_made pages
      = ((now - start < dur) && (st.requests_made < pages)) :=
  ⟨sessionRun_le_pages start dur pages trace _ (Nat.zero_le pages), rfl, rfl⟩

/-- Claim C7: starting from an empty active set, every post-top-up
controller state outside the draining phase has an active-session
count equal to the configured target — in particular the count never
exceeds the target: spawning stops precisely when the target is
reached. -/
theorem c7_controller_cap (cu : Int) (dur : ℚ) (sch : List (ℚ × Nat))
    (h : 0 ≤ cu) :
    ∀ st ∈ ctrl_trace cu dur { active := 0, session_id := 0 } sch,
      (st.active : Int) ≤ cu ∧ (st.active : Int) = cu := by
  intro st hst
  have hx := ctrl_trace_active cu dur h sch
    { active := 0, session_id := 0 } (Nat.zero_le _) st hst
  constructor
  · rw [hx]; omega
  · rw [hx]; omega

/-- Witness for `c7_controller_cap`: with target 2 and a single tick at
elapsed time 0 the trace is the one state with two active sessions. -/
theorem c7_controller_cap_witness :
    (((⟨2, 2⟩ : CtrlState).active : Int) ≤ 2) ∧
    (((⟨2, 2⟩ : CtrlState).active : Int) = 2) := by
  have h0 : top_up 2 2 2 = (2, 2) := top_up_eq_stop 2 2 2 (by norm_num)
  have h1 : top_up 2 1 1 = (2, 2) := by
    rw [top_up, if_pos (show ((1 : Nat) : Int) < 2 by norm_num)]
    exact h0
  have h2 : top_up 2 0 0 = (2, 2) := by
    rw [top_up, if_pos (show ((0 : Nat) : Int) < 2 by norm_num)]
    exact h1
  have htick : tick 2 { active := 0, session_id := 0 } 0 = ⟨2, 2⟩ := by
    simp only [tick]
    norm_num [h2]
  have htrace : ctrl_trace 2 5 { active := 0, session_id := 0 } [(0, 0)]
      = [⟨2, 2⟩] := by
    rw [ctrl_trace, if_pos (show (0 : ℚ) < 5 by norm_num)]
    show tick 2 { active := 0, session_id := 0 } 0
        :: ctrl_trace 2 5 (tick 2 { active := 0, session_id := 0 } 0) [] = [⟨2, 2⟩]
    rw [htick]
    rfl
  exact c7_controller_cap 2 5 [(0, 0)] (by norm_num) ⟨2, 2⟩
    (by rw [htrace]; exact List.mem_singleton.2 rfl)

theorem foldl_union_acc (l : List SessionStats) :
    ∀ acc : Finset String,
      l.foldl (fun a s => a ∪ s.servers_hit) acc
        = acc ∪ l.foldl (fun a s => a ∪ s.servers_hit) ∅ := by
  induction l with
  | nil => intro acc; simp
  | cons s rest ih =>
      intro acc
      simp only [List.foldl_cons]
      rw [ih (acc ∪ s.servers_hit), ih (∅ ∪ s.servers_hit)]
      simp [Finset.union_assoc]

theorem summarize_append (A B : List SessionStats) :
    summarize (A ++ B) = combine (summarize A) (summarize B) := by
  simp only [summarize, combine, List.map_append, List.sum_append,
    List.foldl_append, Totals.mk.injEq, true_and, and_true]
  exact foldl_union_acc B _

theorem combine_assoc (x y z : Totals) :
    combine (combine x y) z = combine x (combine y z) := by
  simp [combine, add_assoc, Finset.union_assoc]

/-- Claim C8: the summary reduction is a homomorphism over list
concatenation — `summarize (A ++ B)` is the component-wise merge
(counter sums, backend-set union) of `summarize A` and `summarize B` —
and the merge is associative. -/
theorem c8_summarize_homomorphism (A B : List SessionStats)
    (x y z : Totals) :
    summarize (A ++ B) = combine (summarize A) (summarize B) ∧
    combine (combine x y) z = combine x (combine y z) :=
  ⟨summarize_append A B, combine_assoc x y z⟩

/-- Claim C9 counterexample: when a session task raises an unexpected
internal fault, `spawn_user` emits no log message (there is no logging
statement on that path) and the fault leaves `spawn_user` uncaught —
contradicting the claim that the fault is caught at the task boundary
and logged. -/
theorem c9_counterexample_fault_not_logged :
    (spawn_user [] (SessionOutcome.fault "boom")).2.1 = ([] : List String) ∧
    (spawn_user [] (SessionOutcome.fault "boom")).2.2
      = Except.error "boom" :=
  ⟨rfl, rfl⟩

/-- Claim C9 (amended): a session task that raises an unexpected
internal fault appends nothing to the completed-session list (its
statistics are excluded from aggregation) and produces no log message;
the fault propagates out of `spawn_user` into the task, where the
drain's `gather` with `return_exceptions=True` absorbs it and returns
normally, so the controller and the other sessions continue — the
completed list over any task outcomes is exactly the stats of the
normally-finished sessions, a faulted task contributing nothing. -/
theorem c9_fault_excluded (completed : List SessionStats) (m : String)
    (stats : SessionStats) (xs ys : List SessionOutcome)
    (rs : List (Except String Unit)) :
    spawn_user completed (.fault m) = (completed, [], .error m) ∧
    spawn_user completed (.ok stats) = (completed ++ [stats], [], .ok ()) ∧
    completedOf (xs ++ SessionOutcome.fault m :: ys) = completedOf (xs ++ ys) ∧
    gather_return_exceptions rs = .ok rs := by
  refine ⟨rfl, rfl, ?_, rfl⟩
  simp [completedOf]

/-- Claim C10: a session's `total_response_time` is the sum of the
elapsed times of its successful requests only — a failed request
increments the request and error counters but adds nothing to the
response-time sum — while the reported average divides that
success-only time by the count of *all* requests, errors included
(division by a zero request count yielding 0, matching the guard). -/
theorem c10_response_time_success_only (l : List ReqOutcome)
    (s : SessionStats) (m : String) (e : ℚ)
    (ls : List (List ReqOutcome)) :
    (statsAfter l).total_response_time = (l.filterMap successElapsed).sum ∧
    (make_request s (.exn m e)).1.total_response_time
      = s.total_response_time ∧
    (summarize (ls.map statsAfter)).total_requests
      = (ls.map fun t => t.length).sum ∧
    avg_response_time (summarize (ls.map statsAfter))
      = (ls.map fun t => (t.filterMap successElapsed).sum).sum
        / (((ls.map fun t => t.length).sum : Nat) : ℚ) := by
  refine ⟨statsAfter_rt l, rfl, summarize_requests_map ls, ?_⟩
  rw [avg_response_time]
  by_cases h : 0 < (summarize (ls.map statsAfter)).total_requests
  · rw [if_pos h, summarize_rt_map, summarize_requests_map]
  · rw [if_neg h]
    have h0 : (summarize (ls.map statsAfter)).total_requests = 0 := by omega
    rw [summarize_requests_map] at h0
    rw [h0]
    have hrt : (ls.map fun t => (t.filterMap successElapsed).sum).sum = 0 := by
      rw [← summarize_rt_map]
      have hreq := summarize_requests_map ls
      rw [h0] at hreq
      have hall : ∀ t ∈ ls, t = ([] : List ReqOutcome) := by
        intro t ht
        have : t.length = 0 := by
          by_contra hne
          have hpos : 0 < t.length := Nat.pos_of_ne_zero hne
          have hle : t.length ≤ (ls.map fun u => u.length).sum :=
            List.le_sum_of_mem (List.mem_map.2 ⟨t, ht, rfl⟩)
          omega
        exact List.eq_nil_of_length_eq_zero this
      have hmap : ls.map statsAfter = ls.map fun _ => statsAfter [] := by
        apply List.map_congr_left
        intro t ht
        rw [hall t ht]
      rw [summarize_rt_map]
      apply List.sum_eq_zero
      intro q hq
      rcases List.mem_map.1 hq with ⟨t, ht, rfl⟩
      rw [hall t ht]
      rfl
    rw [hrt]
    simp

end WebStress
